import Mathlib

/-!
Verification of the liquid-glass optical simulator of `creatorem/ui`.

The repository's `src/src/motion/liquid/filter.tsx` (the `LiquidFilter`
component) is embedded directly.  The numerical engine it calls
(`getDisplacementData`, `calculateRefractionSpecular` from `liquid-lib`) is
not part of the available sources, so it is modelled from the specification
(sections 4.1 to 4.6): geometry resolver, bezel profile, height field,
normal estimator, refraction simulator and displacement-map encoder.
Motion values are abstracted to plain numbers, and omitted React props are
represented with `Option`.
-/

namespace LiquidGlass

/-- Embedding of the `LiquidFilterProps` record of
`src/src/motion/liquid/filter.tsx`.  Optional props are `Option ℚ`
(`none` means the prop was not supplied); `MotionValue` wrappers are
abstracted to the numeric value they carry. -/
structure LiquidFilterProps where
  canvasWidth : Option ℚ
  canvasHeight : Option ℚ
  width : ℚ
  height : ℚ
  radius : ℚ
  blur : Option ℚ
  glassThickness : Option ℚ
  bezelWidth : Option ℚ
  refractiveIndex : Option ℚ
  scaleRatioVal : Option ℚ
  specularOpacity : Option ℚ
  specularSaturation : Option ℚ
  dpr : Option ℚ

/-- Destructuring default `blur = 0.2` in `LiquidFilter`. -/
def resolvedBlur (p : LiquidFilterProps) : ℚ := p.blur.getD (1 / 5)

/-- Destructuring default `glassThickness = 40` in `LiquidFilter`. -/
def resolvedGlassThickness (p : LiquidFilterProps) : ℚ := p.glassThickness.getD 40

/-- Destructuring default `bezelWidth: bezelWidthProp = 20` in `LiquidFilter`. -/
def resolvedBezelWidth (p : LiquidFilterProps) : ℚ := p.bezelWidth.getD 20

/-- Destructuring default `refractiveIndex = 1.5` in `LiquidFilter`. -/
def resolvedRefractiveIndex (p : LiquidFilterProps) : ℚ := p.refractiveIndex.getD (3 / 2)

/-- Destructuring default `specularOpacity = 1` in `LiquidFilter` (the
doc comment of the prop, and the spec, state a default of `0.4`). -/
def resolvedSpecularOpacity (p : LiquidFilterProps) : ℚ := p.specularOpacity.getD 1

/-- Destructuring default `specularSaturation = 4` in `LiquidFilter`. -/
def resolvedSpecularSaturation (p : LiquidFilterProps) : ℚ := p.specularSaturation.getD 4

/-- `const canvasW = canvasWidth ? getValueOrMotion(canvasWidth) : getValueOrMotion(width)`
inside the `displacementData` transform.  JavaScript truthiness: a supplied
value of `0` is falsy and also falls back to `width`. -/
def canvasW (p : LiquidFilterProps) : ℚ :=
  match p.canvasWidth with
  | none => p.width
  | some c => if c = 0 then p.width else c

/-- `const canvasH = canvasHeight ? getValueOrMotion(canvasHeight) : getValueOrMotion(height)`
inside the `displacementData` transform. -/
def canvasH (p : LiquidFilterProps) : ℚ :=
  match p.canvasHeight with
  | none => p.height
  | some c => if c = 0 then p.height else c

/-- `const devicePixelRatio = dpr ? getValueOrMotion(dpr) : 1` inside the
`displacementData` transform. -/
def displacementDpr (p : LiquidFilterProps) : ℚ :=
  match p.dpr with
  | none => 1
  | some d => if d = 0 then 1 else d

/-- `const devicePixelRatio = dpr ? getValueOrMotion(dpr) : 1` inside the
`specularLayer` transform. -/
def specularDpr (p : LiquidFilterProps) : ℚ :=
  match p.dpr with
  | none => 1
  | some d => if d = 0 then 1 else d

/-- `const clampedBezelWidth = Math.max(Math.min(getValueOrMotion(bezelWidthProp),
2 * getValueOrMotion(radius) - 1), 0)` in `LiquidFilter`. -/
def clampedBezelWidth (p : LiquidFilterProps) : ℚ :=
  max (min (resolvedBezelWidth p) (2 * p.radius - 1)) 0

/-- The argument record of the `getDisplacementData` call inside the
`displacementData` transform of `LiquidFilter`. -/
structure DisplacementCall where
  glassThickness : ℚ
  bezelWidth : ℚ
  refractiveIndex : ℚ
  canvasWidth : ℚ
  canvasHeight : ℚ
  objectWidth : ℚ
  objectHeight : ℚ
  radius : ℚ
  dpr : ℚ

/-- The call `getDisplacementData({...})` of the `displacementData`
transform, field by field as written in `filter.tsx`. -/
def displacementCall (p : LiquidFilterProps) : DisplacementCall where
  glassThickness := resolvedGlassThickness p
  bezelWidth := clampedBezelWidth p
  refractiveIndex := resolvedRefractiveIndex p
  canvasWidth := canvasW p
  canvasHeight := canvasH p
  objectWidth := p.width
  objectHeight := p.height
  radius := p.radius
  dpr := displacementDpr p

/-- The argument list of the `calculateRefractionSpecular` call inside the
`specularLayer` transform of `LiquidFilter`. -/
structure SpecularCall where
  width : ℚ
  height : ℚ
  radius : ℚ
  segments : ℕ
  lightDirection : Option (ℚ × ℚ)
  dpr : ℚ

/-- The call `calculateRefractionSpecular(width, height, radius, 50,
undefined, devicePixelRatio)` of the `specularLayer` transform. -/
def specularCall (p : LiquidFilterProps) : SpecularCall where
  width := p.width
  height := p.height
  radius := p.radius
  segments := 50
  lightDirection := none
  dpr := specularDpr p

/-- `const scale = useTransform(() => displacementData.get().maximumDisplacement *
(scaleRatio?.get() ?? 1))`, the value wired to the `scale` attribute of the
`feDisplacementMap` stage. -/
def displacementScale (maximumDisplacement : ℚ) (p : LiquidFilterProps) : ℚ :=
  maximumDisplacement * (p.scaleRatioVal.getD 1)

/-- Width of the first `feImage` (displacement-map layer):
`canvasWidth ? getValueOrMotion(canvasWidth) : getValueOrMotion(width)`. -/
def feImageDisplacementWidth (p : LiquidFilterProps) : ℚ :=
  match p.canvasWidth with
  | none => p.width
  | some c => if c = 0 then p.width else c

/-- Height of the first `feImage` (displacement-map layer). -/
def feImageDisplacementHeight (p : LiquidFilterProps) : ℚ :=
  match p.canvasHeight with
  | none => p.height
  | some c => if c = 0 then p.height else c

/-- Width of the second `feImage` (specular layer); the source repeats the
same `canvasWidth ? ... : width` expression. -/
def feImageSpecularWidth (p : LiquidFilterProps) : ℚ :=
  match p.canvasWidth with
  | none => p.width
  | some c => if c = 0 then p.width else c

/-- Height of the second `feImage` (specular layer). -/
def feImageSpecularHeight (p : LiquidFilterProps) : ℚ :=
  match p.canvasHeight with
  | none => p.height
  | some c => if c = 0 then p.height else c

/-- A fully defaulted prop record: every optional prop omitted.  The
required props take the values of the spec's concrete scenario
(section 8). -/
def defaultProps : LiquidFilterProps where
  canvasWidth := none
  canvasHeight := none
  width := 70
  height := 40
  radius := 20
  blur := none
  glassThickness := none
  bezelWidth := none
  refractiveIndex := none
  scaleRatioVal := none
  specularOpacity := none
  specularSaturation := none
  dpr := none

/-- Modelled from the spec: the displacement-map encoder (section 4.6)
for one channel.  `R = round(128 + 127 * dx / maximumDisplacement)` clamped
to `[0,255]`, with the `maximumDisplacement == 0` special case encoding the
mid-gray value `128` rather than dividing by zero.  Stated over any linear
ordered field with a floor so that it can be evaluated on rationals and
reasoned about on reals. -/
def encodeChannel {α : Type} [LinearOrderedField α] [FloorRing α] (maxDisp v : α) : ℤ :=
  if maxDisp = 0 then 128 else min (max (round (128 + 127 * v / maxDisp)) 0) 255

/-- Modelled from the spec: the decoding convention of section 4.6,
`(channel - 128) / 127 * maximumDisplacement`. -/
def decodeChannel {α : Type} [LinearOrderedField α] [FloorRing α] (maxDisp : α) (c : ℤ) : α :=
  ((c : α) - 128) / 127 * maxDisp

/-- Modelled from the spec: the R and G channels of one encoded pixel of
the DisplacementMap (B and A are the constants 0 and 255). -/
def encodeRG {α : Type} [LinearOrderedField α] [FloorRing α] (maxDisp : α) (v : α × α) : ℤ × ℤ :=
  (encodeChannel maxDisp v.1, encodeChannel maxDisp v.2)

/-- Modelled from the spec: decoding both channels of one pixel back to a
displacement vector. -/
def decodeRG {α : Type} [LinearOrderedField α] [FloorRing α] (maxDisp : α) (c : ℤ × ℤ) : α × α :=
  (decodeChannel maxDisp c.1, decodeChannel maxDisp c.2)

/-- Modelled from the spec: `maximumDisplacement = max(|dx|, |dy|)` over
the whole field (section 4.6), as a fold over the list of displacement
vectors, `0` for the empty field. -/
def fieldMaximumDisplacement {α : Type} [LinearOrderedField α] (field : List (α × α)) : α :=
  (field.map (fun v => max |v.1| |v.2|)).foldr max 0

/-- Modelled from the spec: the `Geometry` record of section 3 (the input
record of `getDisplacementData` after the caller's clamping). -/
structure Geometry where
  objectWidth : ℝ
  objectHeight : ℝ
  radius : ℝ
  bezelWidth : ℝ
  canvasWidth : ℝ
  canvasHeight : ℝ
  dpr : ℝ

/-- Modelled from the spec: the `OpticalConfig` record of section 3
(the bezel profile is the caller supplied `bezelHeightFn`). -/
structure OpticalConfig where
  glassThickness : ℝ
  refractiveIndex : ℝ
  bezelHeightFn : ℝ → ℝ

/-- Modelled from the spec: signed distance from a point to the boundary
of the axis-aligned rounded rectangle `objectWidth × objectHeight` with
corner radius `radius` (section 4.1), positive outside, negative inside.
The rectangle is placed with its top-left corner at the origin. -/
noncomputable def sdRoundedRect (w h r : ℝ) (p : ℝ × ℝ) : ℝ :=
  let qx := |p.1 - w / 2| - (w / 2 - r)
  let qy := |p.2 - h / 2| - (h / 2 - r)
  Real.sqrt (max qx 0 ^ 2 + max qy 0 ^ 2) + min (max qx qy) 0 - r

/-- Modelled from the spec: the geometry resolver's normalized penetration
depth (section 4.1): `0` on and outside the boundary, `1` for interior
points beyond the bevel band, the clamped fraction of `bezelWidth`
travelled inward otherwise; when `bezelWidth = 0` every interior point is
immediately at penetration `1` (flat-top glass with a hard edge). -/
noncomputable def penetration (g : Geometry) (p : ℝ × ℝ) : ℝ :=
  let d := sdRoundedRect g.objectWidth g.objectHeight g.radius p
  if 0 ≤ d then 0
  else if g.bezelWidth = 0 then 1
  else min (-d / g.bezelWidth) 1

/-- Modelled from the spec: the height field builder (section 4.3):
bezel profile evaluated at the penetration, times `glassThickness`. -/
noncomputable def heightAt (g : Geometry) (c : OpticalConfig) (p : ℝ × ℝ) : ℝ :=
  c.glassThickness * c.bezelHeightFn (penetration g p)

/-- Modelled from the spec: the local slope of the height field used by the
normal estimator (section 4.4).  At flat-interior pixels (penetration `1`)
and outside the footprint (penetration `0`) the gradient is zero — the spec
stipulates the exact "up" normal there; inside the bevel band it is the
derivative of the height field along each axis. -/
noncomputable def heightGrad (g : Geometry) (c : OpticalConfig) (p : ℝ × ℝ) : ℝ × ℝ :=
  if penetration g p = 0 ∨ penetration g p = 1 then (0, 0)
  else (fderiv ℝ (heightAt g c) p (1, 0), fderiv ℝ (heightAt g c) p (0, 1))

/-- Modelled from the spec: the normal estimator (section 4.4), the
normalization of `(-dh/dx, -dh/dy, 1)`. -/
noncomputable def normalAt (g : Geometry) (c : OpticalConfig) (p : ℝ × ℝ) : ℝ × ℝ × ℝ :=
  let gx := (heightGrad g c p).1
  let gy := (heightGrad g c p).2
  let len := Real.sqrt (gx ^ 2 + gy ^ 2 + 1)
  (-gx / len, -gy / len, 1 / len)

/-- Modelled from the spec: the refraction simulator (section 4.5).
Vectorized Snell's law for the incident ray `(0,0,-1)` against the surface
normal, with the defensive clamp of `sin θ2` into `[0,1]`, followed by the
projection of the refracted ray from height `hgt` down to the base plane,
giving the 2-D displacement `hgt * (Tx, Ty) / Tz`. -/
noncomputable def refractDisplacement (n : ℝ) (nv : ℝ × ℝ × ℝ) (hgt : ℝ) : ℝ × ℝ :=
  let cos1 := nv.2.2
  let sin1 := Real.sqrt (1 - cos1 ^ 2)
  let sin2 := min (sin1 / n) 1
  let cos2 := Real.sqrt (1 - sin2 ^ 2)
  let k := cos1 / n - cos2
  let tx := (1 / n) * 0 + k * nv.1
  let ty := (1 / n) * 0 + k * nv.2.1
  let tz := (1 / n) * (-1) + k * nv.2.2
  (hgt * tx / tz, hgt * ty / tz)

/-- Modelled from the spec: the displacement vector of one sample point,
refraction simulator applied to the estimated normal and local height. -/
noncomputable def displacementAt (g : Geometry) (c : OpticalConfig) (p : ℝ × ℝ) : ℝ × ℝ :=
  refractDisplacement c.refractiveIndex (normalAt g c p) (heightAt g c p)

/-- Modelled from the spec: the buffers run at device-pixel resolution
`round(canvasWidth * dpr)` (section 6). -/
noncomputable def gridWidth (g : Geometry) : ℕ := (round (g.canvasWidth * g.dpr)).toNat

/-- Modelled from the spec: device-pixel row count `round(canvasHeight * dpr)`. -/
noncomputable def gridHeight (g : Geometry) : ℕ := (round (g.canvasHeight * g.dpr)).toNat

/-- Modelled from the spec: the CSS-unit coordinates of device pixel
`(i, j)`, one device pixel being `1 / dpr` CSS units. -/
noncomputable def samplePoint (g : Geometry) (i j : ℕ) : ℝ × ℝ :=
  ((i : ℝ) / g.dpr, (j : ℝ) / g.dpr)

/-- Modelled from the spec: the dense displacement field sampled on the
device-pixel grid. -/
noncomputable def dispField (g : Geometry) (c : OpticalConfig) (i j : ℕ) : ℝ × ℝ :=
  displacementAt g c (samplePoint g i j)

/-- Modelled from the spec: one row of the displacement field as a list. -/
noncomputable def rowPixels (g : Geometry) (c : OpticalConfig) (j : ℕ) : List (ℝ × ℝ) :=
  (List.range (gridWidth g)).map (fun i => dispField g c i j)

/-- Modelled from the spec: the whole displacement field, row after row. -/
noncomputable def fieldPixels (g : Geometry) (c : OpticalConfig) : List (ℝ × ℝ) :=
  (List.range (gridHeight g)).foldr (fun j acc => rowPixels g c j ++ acc) []

/-- Modelled from the spec: the scalar `maximumDisplacement` of the
computed field (section 4.6). -/
noncomputable def maximumDisplacement (g : Geometry) (c : OpticalConfig) : ℝ :=
  fieldMaximumDisplacement (fieldPixels g c)

/-- Modelled from the spec: the error cases of section 7 that
`getDisplacementData` reports instead of computing. -/
inductive DisplacementError where
  | invalidRefractiveIndex
deriving DecidableEq

/-- Modelled from the spec: the entry point
`computeDisplacement(geometry, config)` (section 6), rejecting
`refractiveIndex ≤ 1` with a configuration error (section 7) and otherwise
returning the encoded RGBA displacement map together with
`maximumDisplacement`. -/
noncomputable def getDisplacementData (g : Geometry) (c : OpticalConfig) :
    Except DisplacementError (List (ℤ × ℤ) × ℝ) :=
  if c.refractiveIndex ≤ 1 then .error .invalidRefractiveIndex
  else .ok ((fieldPixels g c).map (encodeRG (maximumDisplacement g c)), maximumDisplacement g c)

/-- Props with `radius = 0`; used to exercise the bezel-width clamp. -/
def clampProps : LiquidFilterProps :=
  { defaultProps with radius := 0, bezelWidth := some 20 }

/-- Claim C2: the bezel width handed to `getDisplacementData` is exactly
`max(min(input, 2*radius - 1), 0)`; consequently it is always nonnegative
and never exceeds `max(2*radius - 1, 0)` (for `radius ≥ 1/2` this is the
spec's upper bound `2*radius - 1`). -/
theorem bezelWidth_clamped (p : LiquidFilterProps) :
    (displacementCall p).bezelWidth
        = max (min (resolvedBezelWidth p) (2 * p.radius - 1)) 0 ∧
    0 ≤ (displacementCall p).bezelWidth ∧
    (displacementCall p).bezelWidth ≤ max (2 * p.radius - 1) 0 := by
  refine ⟨rfl, le_max_right _ _, ?_⟩
  exact max_le_max (min_le_right _ _) le_rfl

/-- Claim C2, counterexample to the claim as stated: for `radius = 0` the
clamped bezel width is `0`, which does not satisfy
`bezelWidth ≤ 2*radius - 1 = -1`. -/
theorem bezelWidth_invariant_fails :
    ¬ (0 ≤ (displacementCall clampProps).bezelWidth ∧
       (displacementCall clampProps).bezelWidth ≤ 2 * clampProps.radius - 1) := by
  have hbw : (displacementCall clampProps).bezelWidth = 0 := by
    simp [displacementCall, clampedBezelWidth, resolvedBezelWidth, clampProps, defaultProps]
  rw [hbw]
  simp only [clampProps]
  norm_num

/-- Claim C3: evaluating the code at the failing input — with
`specularOpacity` omitted, `LiquidFilter` destructures the default `1`,
not the `0.4` stated by the prop's own doc comment and by the spec. -/
theorem specularOpacity_default_is_one :
    resolvedSpecularOpacity defaultProps = 1 ∧
    resolvedSpecularOpacity defaultProps ≠ 2 / 5 := by
  constructor
  · rfl
  · norm_num [resolvedSpecularOpacity, defaultProps]

/-- Claim C7: the destructuring defaults of `LiquidFilter` are
`blur = 0.2`, `glassThickness = 40`, `bezelWidth = 20`,
`refractiveIndex = 1.5`, `specularSaturation = 4`, and the specular
computation is invoked with `segments = 50`. -/
theorem boundary_defaults (p : LiquidFilterProps)
    (hb : p.blur = none) (hg : p.glassThickness = none) (hw : p.bezelWidth = none)
    (hr : p.refractiveIndex = none) (hs : p.specularSaturation = none) :
    resolvedBlur p = 1 / 5 ∧ resolvedGlassThickness p = 40 ∧
    resolvedBezelWidth p = 20 ∧ resolvedRefractiveIndex p = 3 / 2 ∧
    resolvedSpecularSaturation p = 4 ∧ (specularCall p).segments = 50 := by
  simp [resolvedBlur, resolvedGlassThickness, resolvedBezelWidth,
    resolvedRefractiveIndex, resolvedSpecularSaturation, specularCall,
    hb, hg, hw, hr, hs]

/-- Claim C7, witness at the fully defaulted prop record. -/
theorem boundary_defaults_witness :
    resolvedBlur defaultProps = 1 / 5 ∧ resolvedGlassThickness defaultProps = 40 ∧
    resolvedBezelWidth defaultProps = 20 ∧ resolvedRefractiveIndex defaultProps = 3 / 2 ∧
    resolvedSpecularSaturation defaultProps = 4 ∧ (specularCall defaultProps).segments = 50 :=
  boundary_defaults defaultProps rfl rfl rfl rfl rfl

/-- Claim C8: the `scale` wired to the `feDisplacementMap` stage is the
returned `maximumDisplacement` times `scaleRatio ?? 1`, so omitting
`scaleRatio` makes the multiplier `1`. -/
theorem displacement_scale_eq (maxDisp : ℚ) (p : LiquidFilterProps)
    (h : p.scaleRatioVal = none) :
    displacementScale maxDisp p = maxDisp * (p.scaleRatioVal.getD 1) ∧
    displacementScale maxDisp p = maxDisp := by
  refine ⟨rfl, ?_⟩
  simp [displacementScale, h]

/-- Claim C8, witness at `maximumDisplacement = 5` with `scaleRatio` omitted. -/
theorem displacement_scale_eq_witness :
    displacementScale 5 defaultProps = 5 * (defaultProps.scaleRatioVal.getD 1) ∧
    displacementScale 5 defaultProps = 5 :=
  displacement_scale_eq 5 defaultProps rfl

/-- Claim C9: with `canvasWidth`/`canvasHeight` omitted, the canvas
dimensions used for `getDisplacementData` and for both `feImage` layers
equal the object dimensions, so `canvasWidth ≥ objectWidth` and
`canvasHeight ≥ objectHeight` hold with equality. -/
theorem canvas_defaults_to_object (p : LiquidFilterProps)
    (hw : p.canvasWidth = none) (hh : p.canvasHeight = none) :
    (displacementCall p).canvasWidth = p.width ∧
    (displacementCall p).canvasHeight = p.height ∧
    feImageDisplacementWidth p = p.width ∧ feImageDisplacementHeight p = p.height ∧
    feImageSpecularWidth p = p.width ∧ feImageSpecularHeight p = p.height ∧
    p.width ≤ (displacementCall p).canvasWidth ∧
    p.height ≤ (displacementCall p).canvasHeight := by
  simp [displacementCall, canvasW, canvasH, feImageDisplacementWidth,
    feImageDisplacementHeight, feImageSpecularWidth, feImageSpecularHeight, hw, hh]

/-- Claim C9, witness at the fully defaulted prop record. -/
theorem canvas_defaults_to_object_witness :
    (displacementCall defaultProps).canvasWidth = defaultProps.width ∧
    (displacementCall defaultProps).canvasHeight = defaultProps.height ∧
    feImageDisplacementWidth defaultProps = defaultProps.width ∧
    feImageDisplacementHeight defaultProps = defaultProps.height ∧
    feImageSpecularWidth defaultProps = defaultProps.width ∧
    feImageSpecularHeight defaultProps = defaultProps.height ∧
    defaultProps.width ≤ (displacementCall defaultProps).canvasWidth ∧
    defaultProps.height ≤ (displacementCall defaultProps).canvasHeight :=
  canvas_defaults_to_object defaultProps rfl rfl

/-- Claim C10: with `dpr` omitted, both the displacement transform and the
specular transform resolve the device pixel ratio to `1`, and the two
computations always receive the same ratio. -/
theorem dpr_defaults_to_one (p : LiquidFilterProps) (h : p.dpr = none) :
    (displacementCall p).dpr = 1 ∧ (specularCall p).dpr = 1 ∧
    (displacementCall p).dpr = (specularCall p).dpr := by
  simp [displacementCall, specularCall, displacementDpr, specularDpr, h]

/-- Claim C10, witness at the fully defaulted prop record. -/
theorem dpr_defaults_to_one_witness :
    (displacementCall defaultProps).dpr = 1 ∧ (specularCall defaultProps).dpr = 1 ∧
    (displacementCall defaultProps).dpr = (specularCall defaultProps).dpr :=
  dpr_defaults_to_one defaultProps rfl

theorem encodeChannel_zero_max {α : Type} [LinearOrderedField α] [FloorRing α] (v : α) :
    encodeChannel 0 v = 128 := by
  simp [encodeChannel]

theorem encodeChannel_zero_val {α : Type} [LinearOrderedField α] [FloorRing α] (maxDisp : α) :
    encodeChannel maxDisp 0 = 128 := by
  unfold encodeChannel
  split
  · rfl
  · norm_num

theorem decodeChannel_mid {α : Type} [LinearOrderedField α] [FloorRing α] (maxDisp : α) :
    decodeChannel maxDisp 128 = 0 := by
  simp [decodeChannel]

theorem decode_encode_zero {α : Type} [LinearOrderedField α] [FloorRing α] (maxDisp : α) :
    decodeRG maxDisp (encodeRG maxDisp (0, 0)) = (0, 0) := by
  simp [encodeRG, decodeRG, encodeChannel_zero_val, decodeChannel_mid]

/-- Claim C6, amended: one encoded channel decodes back to the original
value within half an encoding quantum, `maximumDisplacement / 254`
(the stated `±maximumDisplacement/255` is slightly too tight). -/
theorem encode_decode_round_trip {α : Type} [LinearOrderedField α] [FloorRing α]
    (maxDisp v : α) (hpos : 0 < maxDisp) (hv : |v| ≤ maxDisp) :
    |decodeChannel maxDisp (encodeChannel maxDisp v) - v| ≤ maxDisp / 254 := by
  have hne : maxDisp ≠ 0 := ne_of_gt hpos
  have hd := abs_le.mp hv
  have hvle : 127 * v / maxDisp ≤ 127 := by
    rw [div_le_iff₀ hpos]
    nlinarith [hd.1, hd.2]
  have hvge : (-127 : α) ≤ 127 * v / maxDisp := by
    rw [le_div_iff₀ hpos]
    nlinarith [hd.1, hd.2]
  set y : α := 128 + 127 * v / maxDisp with hy
  have hy1 : (1 : α) ≤ y := by rw [hy]; linarith
  have hy255 : y ≤ 255 := by rw [hy]; linarith
  have hr0 : (0 : ℤ) ≤ round y := by
    rw [round_eq, Int.le_floor]
    push_cast
    linarith
  have hr255 : round y ≤ 255 := by
    rw [round_eq]
    have hlt : (⌊y + 1 / 2⌋ : ℤ) < 256 := by
      rw [Int.floor_lt]
      push_cast
      linarith
    omega
  have henc : encodeChannel maxDisp v = round y := by
    rw [encodeChannel, if_neg hne, max_eq_left hr0, min_eq_left hr255]
  rw [henc, decodeChannel]
  have hveq : ((round y : α) - 128) / 127 * maxDisp - v
      = ((round y : α) - y) / 127 * maxDisp := by
    rw [hy]
    field_simp
    ring
  rw [hveq]
  have habs : |(round y : α) - y| ≤ 1 / 2 := by
    rw [abs_sub_comm]
    exact abs_sub_round y
  have hsplit : |((round y : α) - y) / 127 * maxDisp|
      = |(round y : α) - y| / 127 * maxDisp := by
    rw [abs_mul, abs_div, abs_of_pos hpos]
    norm_num
  rw [hsplit]
  calc |(round y : α) - y| / 127 * maxDisp
      ≤ (1 / 2) / 127 * maxDisp := by
        apply mul_le_mul_of_nonneg_right _ (le_of_lt hpos)
        exact (div_le_div_iff_of_pos_right (by norm_num)).mpr habs
    _ = maxDisp / 254 := by ring

/-- Claim C6, witness of the amended bound at `maximumDisplacement = 1`,
`v = 0` over the rationals. -/
theorem encode_decode_round_trip_witness :
    (0 : ℚ) < 1 ∧ |(0 : ℚ)| ≤ 1 ∧
    |decodeChannel (1 : ℚ) (encodeChannel (1 : ℚ) 0) - 0| ≤ 1 / 254 :=
  ⟨by norm_num, by norm_num, encode_decode_round_trip 1 0 (by norm_num) (by norm_num)⟩

/-- A concrete two-pixel displacement field whose quantization error
exceeds `maximumDisplacement / 255` on the second pixel. -/
def exField : List (ℚ × ℚ) := [(127000, 0), (499, 0)]

/-- Claim C6, counterexample to the claim as stated: on `exField` the
field maximum is `127000`, and the pixel `(499, 0)` encodes to channel
`round(128 + 127*499/127000) = round(128.499) = 128`, which decodes to
`0`; the error `499` exceeds `127000 / 255 ≈ 498.04`. -/
theorem round_trip_255_fails :
    ¬ ∀ v ∈ exField,
      |decodeChannel (fieldMaximumDisplacement exField)
          (encodeChannel (fieldMaximumDisplacement exField) v.1) - v.1|
        ≤ fieldMaximumDisplacement exField / 255 := by
  intro hall
  have hmax : fieldMaximumDisplacement exField = 127000 := by
    simp [fieldMaximumDisplacement, exField]
    norm_num [abs_of_nonneg, max_eq_left]
  have h2 := hall (499, 0) (by simp [exField])
  rw [hmax] at h2
  have henc : encodeChannel (127000 : ℚ) 499 = 128 := by
    have hround : round ((128 : ℚ) + 127 * 499 / 127000) = 128 := by
      rw [round_eq]
      rw [show (128 : ℚ) + 127 * 499 / 127000 + 1 / 2 = 128999 / 1000 by norm_num]
      rw [Int.floor_eq_iff]
      norm_num
    rw [encodeChannel, if_neg (by norm_num), hround]
    norm_num
  rw [henc] at h2
  rw [decodeChannel] at h2
  norm_num at h2

theorem refract_flat (n hgt : ℝ) : refractDisplacement n (0, 0, 1) hgt = (0, 0) := by
  have h0 : Real.sqrt (1 - (1 : ℝ) ^ 2) = 0 := by norm_num
  have hmin : min ((0 : ℝ) / n) 1 = 0 := by
    rw [zero_div]
    exact min_eq_left (by norm_num)
  have h1 : Real.sqrt (1 - (0 : ℝ) ^ 2) = 1 := by norm_num
  simp only [refractDisplacement, h0, hmin, h1]
  norm_num

theorem refract_zero_height (n : ℝ) (nv : ℝ × ℝ × ℝ) :
    refractDisplacement n nv 0 = (0, 0) := by
  simp [refractDisplacement]

theorem heightGrad_of_pen_one (g : Geometry) (c : OpticalConfig) (p : ℝ × ℝ)
    (h : penetration g p = 1) : heightGrad g c p = (0, 0) := by
  rw [heightGrad, if_pos (Or.inr h)]

theorem heightGrad_of_pen_zero (g : Geometry) (c : OpticalConfig) (p : ℝ × ℝ)
    (h : penetration g p = 0) : heightGrad g c p = (0, 0) := by
  rw [heightGrad, if_pos (Or.inl h)]

theorem normal_of_flat_grad (g : Geometry) (c : OpticalConfig) (p : ℝ × ℝ)
    (h : heightGrad g c p = (0, 0)) : normalAt g c p = (0, 0, 1) := by
  simp only [normalAt, h]
  norm_num

theorem displacement_of_pen_one (g : Geometry) (c : OpticalConfig) (p : ℝ × ℝ)
    (h : penetration g p = 1) : displacementAt g c p = (0, 0) := by
  rw [displacementAt, normal_of_flat_grad g c p (heightGrad_of_pen_one g c p h), refract_flat]

theorem pen_dichotomy_of_bezel_zero (g : Geometry) (h : g.bezelWidth = 0) (p : ℝ × ℝ) :
    penetration g p = 0 ∨ penetration g p = 1 := by
  simp only [penetration, h]
  by_cases hd : 0 ≤ sdRoundedRect g.objectWidth g.objectHeight g.radius p
  · exact Or.inl (by rw [if_pos hd])
  · refine Or.inr ?_
    rw [if_neg hd]
    simp

theorem displacement_zero_of_degenerate (g : Geometry) (c : OpticalConfig)
    (h : g.bezelWidth = 0 ∨ c.glassThickness = 0) (p : ℝ × ℝ) :
    displacementAt g c p = (0, 0) := by
  rcases h with h | h
  · rcases pen_dichotomy_of_bezel_zero g h p with hp | hp
    · rw [displacementAt, normal_of_flat_grad g c p (heightGrad_of_pen_zero g c p hp), refract_flat]
    · exact displacement_of_pen_one g c p hp
  · have hh : heightAt g c p = 0 := by rw [heightAt, h, zero_mul]
    rw [displacementAt, hh, refract_zero_height]

theorem foldr_max_zero (l : List ℝ) (h : ∀ x ∈ l, x = 0) : l.foldr max 0 = 0 := by
  induction l with
  | nil => rfl
  | cons a t ih =>
    simp only [List.foldr_cons]
    rw [h a (by simp), ih (fun x hx => h x (by simp [hx]))]
    exact max_self 0

theorem mem_foldr_append {β : Type} (f : ℕ → List β) (l : List ℕ) (x : β)
    (hx : x ∈ l.foldr (fun j acc => f j ++ acc) []) : ∃ j ∈ l, x ∈ f j := by
  induction l with
  | nil => simp at hx
  | cons a t ih =>
    simp only [List.foldr_cons, List.mem_append] at hx
    rcases hx with h | h
    · exact ⟨a, by simp, h⟩
    · obtain ⟨j, hj, hxf⟩ := ih h
      exact ⟨j, by simp [hj], hxf⟩

theorem maximumDisplacement_zero_of_pointwise (g : Geometry) (c : OpticalConfig)
    (h : ∀ p : ℝ × ℝ, displacementAt g c p = (0, 0)) :
    maximumDisplacement g c = 0 := by
  rw [maximumDisplacement, fieldMaximumDisplacement]
  apply foldr_max_zero
  intro x hx
  obtain ⟨v, hv, hvx⟩ := List.mem_map.mp hx
  obtain ⟨j, -, hvr⟩ := mem_foldr_append (rowPixels g c) _ v hv
  obtain ⟨i, -, hvi⟩ := List.mem_map.mp hvr
  rw [← hvx, ← hvi, dispField, h]
  norm_num

/-- Claim C5: when the bezel width or the glass thickness is zero the
whole displacement field is zero, `maximumDisplacement` is `0`, and every
pixel of the map encodes exactly the channel pair `(128, 128)` without any
division by zero in the encoder. -/
theorem degenerate_geometry_zero_map (g : Geometry) (c : OpticalConfig)
    (h : g.bezelWidth = 0 ∨ c.glassThickness = 0) :
    maximumDisplacement g c = 0 ∧
    ∀ i j : ℕ, encodeRG (maximumDisplacement g c) (dispField g c i j) = (128, 128) := by
  have hmax : maximumDisplacement g c = 0 :=
    maximumDisplacement_zero_of_pointwise g c (displacement_zero_of_degenerate g c h)
  refine ⟨hmax, fun i j => ?_⟩
  rw [hmax, encodeRG, encodeChannel_zero_max, encodeChannel_zero_max]

/-- Geometry with a zero bezel width (hard-edged flat-top glass). -/
def exGeometryFlat : Geometry where
  objectWidth := 70
  objectHeight := 40
  radius := 20
  bezelWidth := 0
  canvasWidth := 70
  canvasHeight := 40
  dpr := 1

/-- The optical configuration of the spec's concrete scenario
(section 8), with the identity bezel profile. -/
noncomputable def exConfig : OpticalConfig where
  glassThickness := 80
  refractiveIndex := 3 / 2
  bezelHeightFn := fun x => x

/-- Claim C5, witness at the zero-bezel geometry. -/
theorem degenerate_geometry_zero_map_witness :
    maximumDisplacement exGeometryFlat exConfig = 0 ∧
    ∀ i j : ℕ, encodeRG (maximumDisplacement exGeometryFlat exConfig)
      (dispField exGeometryFlat exConfig i j) = (128, 128) :=
  degenerate_geometry_zero_map exGeometryFlat exConfig (Or.inl rfl)

/-- Claim C4: any configuration with `refractiveIndex ≤ 1` is rejected by
the displacement computation with a configuration error instead of being
fed to the refraction formula. -/
theorem refractiveIndex_le_one_rejected (g : Geometry) (c : OpticalConfig)
    (h : c.refractiveIndex ≤ 1) :
    getDisplacementData g c = .error .invalidRefractiveIndex := by
  rw [getDisplacementData, if_pos h]

/-- Optical configuration with the degenerate refractive index `1`. -/
noncomputable def exConfigBad : OpticalConfig where
  glassThickness := 80
  refractiveIndex := 1
  bezelHeightFn := fun x => x

/-- Claim C4, witness at `refractiveIndex = 1`. -/
theorem refractiveIndex_le_one_rejected_witness :
    getDisplacementData exGeometryFlat exConfigBad = .error .invalidRefractiveIndex :=
  refractiveIndex_le_one_rejected exGeometryFlat exConfigBad (by norm_num [exConfigBad])

/-- Claim C1: a pixel whose penetration is `1` (flat interior beyond the
bevel band) has displacement exactly `(0, 0)`, and its encoded channels
decode back to exactly `(0, 0)` whatever the field's maximum displacement
turned out to be. -/
theorem flat_interior_identity (g : Geometry) (c : OpticalConfig) (i j : ℕ)
    (hpen : penetration g (samplePoint g i j) = 1) :
    dispField g c i j = (0, 0) ∧
    decodeRG (maximumDisplacement g c)
      (encodeRG (maximumDisplacement g c) (dispField g c i j)) = (0, 0) := by
  have hd : dispField g c i j = (0, 0) := by
    rw [dispField, displacement_of_pen_one g c _ hpen]
  refine ⟨hd, ?_⟩
  rw [hd, decode_encode_zero]

/-- The geometry of the spec's concrete scenario (section 8):
`70 × 40`, corner radius `20`, bezel width `16`, canvas = object, `dpr = 1`. -/
def exGeometry : Geometry where
  objectWidth := 70
  objectHeight := 40
  radius := 20
  bezelWidth := 16
  canvasWidth := 70
  canvasHeight := 40
  dpr := 1

theorem pen_center : penetration exGeometry (samplePoint exGeometry 35 20) = 1 := by
  have hp : samplePoint exGeometry 35 20 = ((35 : ℝ), (20 : ℝ)) := by
    simp [samplePoint, exGeometry]
  have hq1 : |(35 : ℝ) - 70 / 2| - (70 / 2 - 20) = -15 := by norm_num
  have hq2 : |(20 : ℝ) - 40 / 2| - (40 / 2 - 20) = 0 := by norm_num
  have hd : sdRoundedRect exGeometry.objectWidth exGeometry.objectHeight
      exGeometry.radius ((35 : ℝ), (20 : ℝ)) = -20 := by
    show sdRoundedRect 70 40 20 ((35 : ℝ), (20 : ℝ)) = -20
    rw [sdRoundedRect]
    simp only [hq1, hq2]
    rw [max_eq_right (by norm_num : (-15 : ℝ) ≤ 0), max_self]
    norm_num [min_self]
  rw [hp, penetration]
  simp only [hd]
  rw [if_neg (by norm_num), if_neg (by norm_num [exGeometry])]
  show min (-(-20) / exGeometry.bezelWidth) 1 = 1
  rw [min_eq_right]
  show (1 : ℝ) ≤ -(-20) / 16
  norm_num

/-- Claim C1, witness: the center pixel of the concrete scenario geometry
has penetration `1`, zero displacement, and decodes to `(0, 0)`. -/
theorem flat_interior_identity_witness :
    penetration exGeometry (samplePoint exGeometry 35 20) = 1 ∧
    dispField exGeometry exConfig 35 20 = (0, 0) ∧
    decodeRG (maximumDisplacement exGeometry exConfig)
      (encodeRG (maximumDisplacement exGeometry exConfig)
        (dispField exGeometry exConfig 35 20)) = (0, 0) :=
  ⟨pen_center, (flat_interior_identity exGeometry exConfig 35 20 pen_center).1,
    (flat_interior_identity exGeometry exConfig 35 20 pen_center).2⟩

end LiquidGlass
